import Mathlib

/-!
Shallow embedding of `rtsp_roi_counter.py`: the ROI data model and overlap
test, the detection classifier, the per-frame detection scan, the rolling
performance monitor, the frame probe, config validation and the run
lifecycle, with theorems checking the specification's claims against it.

Python floats are modelled by `ℚ`; Python lists and `collections.deque`
by Lean lists (a `deque` with `maxlen` keeps the most recent elements).
-/

/-- `ROI` dataclass: region of interest in relative coordinates. -/
structure ROI where
  x1 : ℚ
  y1 : ℚ
  x2 : ℚ
  y2 : ℚ
  name : String
deriving DecidableEq

/-- `ROI.contains_bbox`: overlap test between an absolute-pixel bbox and the
ROI scaled to pixels by the frame dimensions (lines 39–55 of the source). -/
def ROI.contains_bbox (r : ROI) (bbox_x1 bbox_y1 bbox_x2 bbox_y2
    frame_width frame_height : ℚ) : Bool :=
  let roi_abs_x1 := r.x1 * frame_width
  let roi_abs_y1 := r.y1 * frame_height
  let roi_abs_x2 := r.x2 * frame_width
  let roi_abs_y2 := r.y2 * frame_height
  if bbox_x2 < roi_abs_x1 ∨ bbox_x1 > roi_abs_x2 ∨
      bbox_y2 < roi_abs_y1 ∨ bbox_y1 > roi_abs_y2 then
    false
  else
    true

theorem contains_bbox_eq_false_iff (r : ROI) (bx1 by1 bx2 by2 w h : ℚ) :
    r.contains_bbox bx1 by1 bx2 by2 w h = false ↔
      (bx2 < r.x1 * w ∨ bx1 > r.x2 * w ∨ by2 < r.y1 * h ∨ by1 > r.y2 * h) := by
  simp only [ROI.contains_bbox]
  split <;> simp_all

/-- Model of Python's `str.lower()` (ASCII case folding, as used on labels). -/
def strLower (s : String) : String := ⟨s.data.map Char.toLower⟩

/-- COCO class id for persons (line 27). -/
def COCO_PERSON : Int := 0

/-- COCO class ids for vehicles: car, motorcycle, bus, truck (line 28). -/
def COCO_VEHICLES : List Int := [2, 3, 5, 7]

/-- Normalized bounding box as returned by `detection.get_bbox()`. -/
structure BBox where
  xmin : ℚ
  ymin : ℚ
  xmax : ℚ
  ymax : ℚ
deriving DecidableEq

/-- A Hailo label is either a string or an integer (lines 295–298). -/
inductive LabelVal where
  | str (s : String)
  | int (n : Int)
deriving DecidableEq

/-- Raw detection as observed through the Hailo API.  `class_id` is the result
of the guarded `get_class_id()` attempt (`none` when the attribute is missing
or the call raised, both swallowed by the inner `try`); `label` likewise for
`get_label()`.  `bbox_raises` records whether accessing
`get_bbox()`/`get_confidence()` raises (those calls are not guarded by an
inner `try`, so such an exception escapes to the outer handler). -/
structure RawDet where
  class_id : Option Int
  label : Option LabelVal
  bbox_raises : Bool
  bbox : BBox
  confidence : ℚ
deriving DecidableEq

/-- `LABEL_TO_CLASS` dict lookup (lines 270–279): maps a (lowercased) label
string to a COCO class id, `none` for unknown labels. -/
def LABEL_TO_CLASS (s : String) : Option Int :=
  if s = "person" then some 0
  else if s = "car" then some 2
  else if s = "automobile" then some 2
  else if s = "motorcycle" then some 3
  else if s = "motorbike" then some 3
  else if s = "bus" then some 5
  else if s = "truck" then some 7
  else if s = "lorry" then some 7
  else none

/-- Class-id resolution for one detection (lines 283–300): prefer the numeric
`get_class_id`; otherwise fall back to the label — a string label is
lowercased and looked up in `LABEL_TO_CLASS`, an integer label is used
directly; `none` when nothing usable remains. -/
def resolve_class_id (d : RawDet) : Option Int :=
  match d.class_id with
  | some c => some c
  | none =>
    match d.label with
    | some (LabelVal.str s) => LABEL_TO_CLASS (strLower s)
    | some (LabelVal.int n) => some n
    | none => none

/-- Semantic category a resolved class id falls into. -/
inductive Category where
  | person
  | vehicle
  | other
deriving DecidableEq

/-- The `if class_id == COCO_PERSON / elif class_id in COCO_VEHICLES` branch
(lines 329–334) as a category map. -/
def category_of (cid : Int) : Category :=
  if cid = COCO_PERSON then Category.person
  else if COCO_VEHICLES.contains cid then Category.vehicle
  else Category.other

/-- Full classification of a raw detection: resolved class id mapped to its
category, `none` when the detection is skipped. -/
def classify (d : RawDet) : Option Category :=
  (resolve_class_id d).map category_of

/-- Per-frame counters (`person_count`, `vehicle_count`, `total_detections`,
lines 252–254). -/
structure Counts where
  person_count : ℕ
  vehicle_count : ℕ
  total_detections : ℕ
deriving DecidableEq

/-- One loop iteration's counting effect for an in-scope detection with
resolved class id `cid` and normalized bbox `b` (lines 316–336): the bbox is
scaled to absolute pixels, tested against the ROI, and on overlap the total
and the matching per-category counter are bumped. -/
def tally (r : ROI) (frame_width frame_height : ℚ) (acc : Counts)
    (cid : Int) (b : BBox) : Counts :=
  if r.contains_bbox (b.xmin * frame_width) (b.ymin * frame_height)
      (b.xmax * frame_width) (b.ymax * frame_height)
      frame_width frame_height then
    let acc' : Counts := { acc with total_detections := acc.total_detections + 1 }
    match category_of cid with
    | Category.person => { acc' with person_count := acc'.person_count + 1 }
    | Category.vehicle => { acc' with vehicle_count := acc'.vehicle_count + 1 }
    | Category.other => acc'
  else acc

/-- The `for detection in detections` scan (lines 282–336) together with the
surrounding `try`: detections with unresolvable class are skipped; a
detection whose bbox/confidence access raises aborts the scan (the exception
propagates to the outer `except`), keeping the counts accumulated so far.
Returns the final counts and whether an exception escaped the loop. -/
def scan_detections (r : ROI) (frame_width frame_height : ℚ) :
    List RawDet → Counts → Counts × Bool
  | [], acc => (acc, false)
  | d :: rest, acc =>
    match resolve_class_id d with
    | none => scan_detections r frame_width frame_height rest acc
    | some cid =>
      if d.bbox_raises then (acc, true)
      else scan_detections r frame_width frame_height rest
        (tally r frame_width frame_height acc cid d.bbox)

/-- `DetectionStats` dataclass (lines 57–65): statistics for a single frame.
`processing_time_ms` actually holds the frame-to-frame interval (line 355). -/
structure DetectionStats where
  timestamp : ℚ
  person_count : ℕ
  vehicle_count : ℕ
  total_detections : ℕ
  processing_time_ms : ℚ
  roi_name : String
deriving DecidableEq

/-- Append to a `collections.deque(maxlen=N)`: keep only the most recent
`maxlen` elements, silently discarding the oldest. -/
def dequeAppend (maxlen : ℕ) (xs : List α) (x : α) : List α :=
  let ys := xs ++ [x]
  ys.drop (ys.length - maxlen)

/-- `PerformanceMonitor` (lines 67–80): two bounded deques sharing one
window size (the lock is irrelevant in this sequential model). -/
structure PerformanceMonitor where
  window_size : ℕ
  frame_times : List ℚ
  detection_stats : List DetectionStats
deriving DecidableEq

/-- `PerformanceMonitor.__init__` (window_size defaults to 100). -/
def PerformanceMonitor.init (window_size : ℕ) : PerformanceMonitor :=
  ⟨window_size, [], []⟩

/-- `add_frame_time` (lines 74–76). -/
def PerformanceMonitor.add_frame_time (m : PerformanceMonitor) (time_ms : ℚ) :
    PerformanceMonitor :=
  { m with frame_times := dequeAppend m.window_size m.frame_times time_ms }

/-- `add_detection` (lines 78–80). -/
def PerformanceMonitor.add_detection (m : PerformanceMonitor)
    (stats : DetectionStats) : PerformanceMonitor :=
  { m with detection_stats := dequeAppend m.window_size m.detection_stats stats }

/-- The paired recording the probe performs for one frame (lines 359–360):
the frame interval into `frame_times` and the stats into `detection_stats`. -/
def PerformanceMonitor.record_sample (m : PerformanceMonitor)
    (stats : DetectionStats) : PerformanceMonitor :=
  (m.add_frame_time stats.processing_time_ms).add_detection stats

/-- Round-half-to-even on an integer boundary, the semantics of Python's
built-in `round`. -/
def roundHalfEven (x : ℚ) : ℤ :=
  let f := ⌊x⌋
  let r := x - f
  if r < 1/2 then f
  else if 1/2 < r then f + 1
  else if f % 2 = 0 then f else f + 1

/-- Python's `round(x, 2)`: round to two decimal places, ties to even. -/
def pyRound2 (x : ℚ) : ℚ := (roundHalfEven (x * 100) : ℚ) / 100

/-- Python `list(xs)[-10:]`: the last ten elements (all of them when fewer). -/
def lastTen (l : List α) : List α := l.drop (l.length - 10)

/-- The dictionary returned by `get_stats` (lines 93–99). -/
structure AggStats where
  avg_processing_time_ms : ℚ
  fps : ℚ
  total_frames : ℕ
  recent_person_count : ℚ
  recent_vehicle_count : ℚ
deriving DecidableEq

/-- `get_stats` (lines 82–99): `none` models the empty dict returned when no
frame times were recorded; otherwise the average interval and fps are rounded
to two decimals and the recent person/vehicle counts are averaged over the
last ten samples. -/
def PerformanceMonitor.get_stats (m : PerformanceMonitor) : Option AggStats :=
  if m.frame_times = [] then none
  else
    let avg_time : ℚ := m.frame_times.sum / (m.frame_times.length : ℚ)
    let fps : ℚ := if avg_time > 0 then 1000 / avg_time else 0
    let recent_persons : List ℚ :=
      (lastTen m.detection_stats).map (fun s => (s.person_count : ℚ))
    let recent_vehicles : List ℚ :=
      (lastTen m.detection_stats).map (fun s => (s.vehicle_count : ℚ))
    some
      { avg_processing_time_ms := pyRound2 avg_time
        fps := pyRound2 fps
        total_frames := m.frame_times.length
        recent_person_count :=
          if recent_persons = [] then 0
          else recent_persons.sum / (recent_persons.length : ℚ)
        recent_vehicle_count :=
          if recent_vehicles = [] then 0
          else recent_vehicles.sum / (recent_vehicles.length : ℚ) }

/-- The mutable state of `RTSPROICounter` that `on_buffer_probe` touches. -/
structure CounterState where
  roi : ROI
  frame_width : ℚ
  frame_height : ℚ
  perf_monitor : PerformanceMonitor
  frame_count : ℕ
  last_frame_time : Option ℚ
deriving DecidableEq

/-- State right after `RTSPROICounter.__init__` (lines 148–164): fresh
monitor with the default window of 100, no frames seen, no prior timestamp. -/
def initState (r : ROI) (frame_width frame_height : ℚ) : CounterState :=
  ⟨r, frame_width, frame_height, PerformanceMonitor.init 100, 0, none⟩

/-- One invocation of `on_buffer_probe` (lines 227–376) on a frame arriving
at wall-clock `current_time` carrying `dets`: compute the interval against
the previous frame (0 when there is none), scan the detections, and record a
`DetectionStats` sample only when the interval is strictly positive. -/
def on_buffer_probe (s : CounterState) (current_time : ℚ)
    (dets : List RawDet) : CounterState :=
  let frame_interval_ms : ℚ :=
    match s.last_frame_time with
    | some t => (current_time - t) * 1000
    | none => 0
  let counts : Counts :=
    (scan_detections s.roi s.frame_width s.frame_height dets ⟨0, 0, 0⟩).1
  let m : PerformanceMonitor :=
    if frame_interval_ms > 0 then
      s.perf_monitor.record_sample
        { timestamp := current_time
          person_count := counts.person_count
          vehicle_count := counts.vehicle_count
          total_detections := counts.total_detections
          processing_time_ms := frame_interval_ms
          roi_name := s.roi.name }
    else s.perf_monitor
  { s with
    perf_monitor := m
    frame_count := s.frame_count + 1
    last_frame_time := some current_time }

/-- The `roi` sub-object of the JSON configuration. -/
structure ROIConfig where
  x1 : ℚ
  y1 : ℚ
  x2 : ℚ
  y2 : ℚ
  name : String
deriving DecidableEq

/-- The configuration dict, with the four required fields as options so that
a missing field is representable. -/
structure Config where
  rtsp_url : Option String
  roi : Option ROIConfig
  hef_path : Option String
  postprocess_so : Option String
deriving DecidableEq

/-- `load_config` validation (lines 196–207): reject a config missing any of
the four required fields, otherwise return it unchanged. -/
def load_config (c : Config) : Except String Config :=
  if c.rtsp_url.isNone then Except.error "Missing required config field: rtsp_url"
  else if c.roi.isNone then Except.error "Missing required config field: roi"
  else if c.hef_path.isNone then Except.error "Missing required config field: hef_path"
  else if c.postprocess_so.isNone then
    Except.error "Missing required config field: postprocess_so"
  else Except.ok c

/-- ROI construction in `__init__` (line 154): `ROI(**self.config['roi'])`
after `load_config` — the dataclass applies no validation of its own. -/
def init_roi (c : Config) : Except String ROI :=
  match load_config c with
  | Except.error e => Except.error e
  | Except.ok c' =>
    match c'.roi with
    | some rc => Except.ok ⟨rc.x1, rc.y1, rc.x2, rc.y2, rc.name⟩
    | none => Except.error "Missing required config field: roi"

/-- What ends the GLib main loop in `run` (lines 378–398, 522–525): an EOS
or error message quits the loop, a `KeyboardInterrupt` breaks out of
`loop.run()`. -/
inductive RunEvent where
  | eos
  | error (msg : String)
  | interrupt
deriving DecidableEq

/-- Observable outcome of `RTSPROICounter.run`. -/
structure RunResult where
  exit_code : ℕ
  final_stats_logged : Bool
deriving DecidableEq

/-- Control flow of `run` (lines 467–535): return 1 when `Gst.parse_launch`
raises (construction failure) or `set_state(PLAYING)` returns FAILURE (start
rejected) — both before the main loop, so no final statistics are logged.
Otherwise the loop runs until `ev` ends it and the `finally` block logs the
final aggregated statistics before returning 0. -/
def run_lifecycle (parse_launch_ok : Bool) (set_state_ok : Bool)
    (ev : RunEvent) : RunResult :=
  if !parse_launch_ok then ⟨1, false⟩
  else if !set_state_ok then ⟨1, false⟩
  else
    match ev with
    | RunEvent.eos => ⟨0, true⟩
    | RunEvent.error _ => ⟨0, true⟩
    | RunEvent.interrupt => ⟨0, true⟩

/-- The example ROI from the source's sample config: `{0.2, 0.2, 0.8, 0.8}`. -/
def roiDefault : ROI := ⟨2/10, 2/10, 8/10, 8/10, "entrance"⟩

/-- C1: with the region's fractional coordinates scaled to pixels by the
frame dimensions, `contains_bbox` returns false exactly when the boxes are
strictly disjoint on some axis, and true otherwise; in particular a box
touching the region edge exactly (`bbox_xmax = roi_xmin`) overlaps. -/
theorem contains_bbox_overlap_test (r : ROI) (bx1 by1 bx2 by2 w h : ℚ) :
    (r.contains_bbox bx1 by1 bx2 by2 w h = false ↔
      (bx2 < r.x1 * w ∨ bx1 > r.x2 * w ∨ by2 < r.y1 * h ∨ by1 > r.y2 * h)) ∧
    (bx2 = r.x1 * w → ¬(bx1 > r.x2 * w) → ¬(by2 < r.y1 * h) → ¬(by1 > r.y2 * h) →
      r.contains_bbox bx1 by1 bx2 by2 w h = true) := by
  have hiff := contains_bbox_eq_false_iff r bx1 by1 bx2 by2 w h
  refine ⟨hiff, ?_⟩
  intro h1 h2 h3 h4
  rcases Bool.eq_false_or_eq_true (r.contains_bbox bx1 by1 bx2 by2 w h) with hc | hc
  · exact hc
  · exfalso
    rcases hiff.mp hc with hd | hd | hd | hd
    · rw [h1] at hd; exact lt_irrefl _ hd
    · exact h2 hd
    · exact h3 hd
    · exact h4 hd

theorem contains_bbox_overlap_test_witness :
    roiDefault.contains_bbox 100 200 128 300 640 640 = true := by
  have h := contains_bbox_overlap_test roiDefault 100 200 128 300 640 640
  exact h.2 (by norm_num [roiDefault]) (by norm_num [roiDefault])
    (by norm_num [roiDefault]) (by norm_num [roiDefault])

/-- C6 counterexample: a config whose region is inverted (`x1 > x2`,
`y1 > y2`) passes startup validation and yields a constructed `ROI` — no
geometry check rejects it. -/
def invertedConfig : Config :=
  ⟨some "rtsp://cam", some ⟨8/10, 8/10, 2/10, 2/10, "r"⟩,
    some "model.hef", some "post.so"⟩

/-- C6 counterexample: constructing a Region violating `x1 < x2` succeeds —
the claim that such construction fails is false on this code. -/
theorem roi_inverted_accepted :
    init_roi invertedConfig = Except.ok ⟨8/10, 8/10, 2/10, 2/10, "r"⟩ ∧
    ¬((8 : ℚ)/10 < 2/10) := ⟨rfl, by norm_num⟩

/-- C6 (amended): ROI construction applies no geometric validation — any
coordinates, degenerate or inverted included, are accepted verbatim once the
required config fields are present; startup rejects only missing fields. -/
theorem init_roi_no_geometry_check (u hp ps : String) (rc : ROIConfig) :
    init_roi ⟨some u, some rc, some hp, some ps⟩ =
      Except.ok ⟨rc.x1, rc.y1, rc.x2, rc.y2, rc.name⟩ ∧
    init_roi ⟨some u, none, some hp, some ps⟩ =
      Except.error "Missing required config field: roi" := ⟨rfl, rfl⟩

/-- C7 counterexample: with both frame dimensions equal to 0 (≤ 0) and a box
whose corners straddle the origin, `contains_bbox` returns true, not the
guarded false the claim asserts. -/
theorem contains_bbox_zero_dims_true :
    ((0 : ℚ) ≤ 0) ∧ roiDefault.contains_bbox (-1) (-1) 0 0 0 0 = true := by
  refine ⟨le_refl 0, ?_⟩
  simp only [ROI.contains_bbox, roiDefault]
  norm_num

/-- C7 (amended): `contains_bbox` has no guard on the frame dimensions — for
`frame_width ≤ 0` or `frame_height ≤ 0` it still evaluates the same scaled
disjointness comparisons (and, being a total function, never crashes). -/
theorem contains_bbox_no_dim_guard (r : ROI) (bx1 by1 bx2 by2 w h : ℚ)
    (_hw : w ≤ 0 ∨ h ≤ 0) :
    (r.contains_bbox bx1 by1 bx2 by2 w h = false ↔
      (bx2 < r.x1 * w ∨ bx1 > r.x2 * w ∨ by2 < r.y1 * h ∨ by1 > r.y2 * h)) :=
  contains_bbox_eq_false_iff r bx1 by1 bx2 by2 w h

theorem contains_bbox_no_dim_guard_witness :
    (roiDefault.contains_bbox 1 1 2 2 (-1) (-1) = false ↔
      ((2 : ℚ) < roiDefault.x1 * (-1) ∨ (1 : ℚ) > roiDefault.x2 * (-1) ∨
        (2 : ℚ) < roiDefault.y1 * (-1) ∨ (1 : ℚ) > roiDefault.y2 * (-1))) :=
  contains_bbox_no_dim_guard roiDefault 1 1 2 2 (-1) (-1) (Or.inl (by norm_num))

/-- C9: `run` exits with code 1 when pipeline construction fails or the
start command is rejected (and then logs no final statistics), and with
code 0 after an end-of-stream or operator interrupt on a successful run,
logging the final aggregated statistics before exit. -/
theorem run_exit_codes (b s : Bool) (ev : RunEvent) :
    (b = false → run_lifecycle b s ev = ⟨1, false⟩) ∧
    (s = false → run_lifecycle true s ev = ⟨1, false⟩) ∧
    ((ev = RunEvent.eos ∨ ev = RunEvent.interrupt) →
      (run_lifecycle true true ev).exit_code = 0 ∧
      (run_lifecycle true true ev).final_stats_logged = true) := by
  refine ⟨?_, ?_, ?_⟩
  · rintro rfl; rfl
  · rintro rfl; rfl
  · rintro (rfl | rfl) <;> exact ⟨rfl, rfl⟩

theorem foldl_dequeAppend (N : ℕ) (l : List α) :
    l.foldl (dequeAppend N) [] = l.drop (l.length - N) := by
  induction l using List.reverseRecOn with
  | nil => simp
  | append_singleton l x ih =>
    rw [List.foldl_append, List.foldl_cons, List.foldl_nil, ih]
    simp only [dequeAppend]
    rcases Nat.lt_or_ge l.length N with hlt | hge
    · rw [Nat.sub_eq_zero_of_le (Nat.le_of_lt hlt), List.drop_zero]
    · rcases Nat.eq_zero_or_pos N with rfl | hN
      · simp [List.drop_length, List.drop_eq_nil_of_le]
      · have hxs : (l.drop (l.length - N)).length = N := by
          rw [List.length_drop]; omega
        have h1 : (l.drop (l.length - N) ++ [x]).length - N = 1 := by
          rw [List.length_append, hxs]; simp
        rw [h1, List.drop_append_of_le_length (by rw [hxs]; omega),
          List.drop_drop, List.length_append]
        have h2 : l.length + [x].length - N = l.length + 1 - N := by simp
        rw [h2, List.drop_append_of_le_length (by omega)]
        have h3 : l.length - N + 1 = l.length + 1 - N := by omega
        rw [h3]

theorem foldl_record_sample (l : List DetectionStats) (m : PerformanceMonitor) :
    l.foldl PerformanceMonitor.record_sample m =
      ⟨m.window_size,
        (l.map DetectionStats.processing_time_ms).foldl
          (dequeAppend m.window_size) m.frame_times,
        l.foldl (dequeAppend m.window_size) m.detection_stats⟩ := by
  induction l generalizing m with
  | nil => rfl
  | cons a l ih =>
    rw [List.foldl_cons, ih, List.map_cons, List.foldl_cons]
    rfl

/-- C4: recording `N + 5` samples into a fresh monitor with window capacity
`N` leaves exactly the most recent `N` samples, in order, in the stats
window (older ones silently evicted), and `get_stats` then reports
`total_frames = N`. -/
theorem window_eviction (N : ℕ) (l : List DetectionStats)
    (hN : 0 < N) (hl : l.length = N + 5) :
    (l.foldl PerformanceMonitor.record_sample
        (PerformanceMonitor.init N)).detection_stats = l.drop (l.length - N) ∧
    ((l.foldl PerformanceMonitor.record_sample
        (PerformanceMonitor.init N)).get_stats).map AggStats.total_frames
      = some N := by
  rw [foldl_record_sample]
  simp only [PerformanceMonitor.init]
  constructor
  · exact foldl_dequeAppend N l
  · have hft := foldl_dequeAppend N (l.map DetectionStats.processing_time_ms)
    have hlen : ((l.map DetectionStats.processing_time_ms).foldl
        (dequeAppend N) []).length = N := by
      rw [hft, List.length_drop, List.length_map, hl]; omega
    have hne : (l.map DetectionStats.processing_time_ms).foldl
        (dequeAppend N) [] ≠ [] := by
      intro h0
      rw [h0] at hlen
      simp at hlen
      omega
    simp only [PerformanceMonitor.get_stats]
    rw [if_neg hne]
    simp [hlen]

/-- A minimal `DetectionStats` sample whose frame interval is `t`. -/
def dsAt (t : ℚ) : DetectionStats := ⟨t, 0, 0, 0, t, "r"⟩

theorem window_eviction_witness :
    (([dsAt 1, dsAt 2, dsAt 3, dsAt 4, dsAt 5, dsAt 6].foldl
        PerformanceMonitor.record_sample
        (PerformanceMonitor.init 1)).detection_stats
      = [dsAt 1, dsAt 2, dsAt 3, dsAt 4, dsAt 5, dsAt 6].drop
          ([dsAt 1, dsAt 2, dsAt 3, dsAt 4, dsAt 5, dsAt 6].length - 1)) ∧
    (([dsAt 1, dsAt 2, dsAt 3, dsAt 4, dsAt 5, dsAt 6].foldl
        PerformanceMonitor.record_sample
        (PerformanceMonitor.init 1)).get_stats).map AggStats.total_frames
      = some 1 :=
  window_eviction 1 [dsAt 1, dsAt 2, dsAt 3, dsAt 4, dsAt 5, dsAt 6]
    (by norm_num) (by decide)

/-- A monitor holding a single 3 ms frame interval and one sample: its mean
interval is 3, so the unrounded fps would be 1000/3. -/
def c5mon : PerformanceMonitor := ⟨100, [3], [dsAt 3]⟩

/-- C5 counterexample: `get_stats` stores `fps` rounded to two decimals
(333.33), which differs from 1000 divided by the mean recorded interval
(1000/3) — the snapshot fields are not the exact quotients the claim
states. -/
theorem get_stats_fps_rounded :
    (c5mon.get_stats).map AggStats.fps = some (33333/100 : ℚ) ∧
    (33333/100 : ℚ) ≠
      1000 / (c5mon.frame_times.sum / (c5mon.frame_times.length : ℚ)) := by
  constructor
  · simp only [PerformanceMonitor.get_stats, c5mon]
    norm_num [pyRound2, roundHalfEven, lastTen, dsAt]
  · simp only [c5mon]
    norm_num

/-- C5 (amended): for a non-empty window with positive mean interval,
`get_stats` is recomputed from the current window contents as: the mean
recorded interval and `1000 / mean`, each rounded to two decimal places
(Python `round`, ties to even), the window length, and the exact averages of
the person and vehicle counts over the last ten samples (all of them when
fewer, 0 when none). -/
theorem get_stats_formulas (m : PerformanceMonitor)
    (h1 : m.frame_times ≠ [])
    (h2 : 0 < m.frame_times.sum / (m.frame_times.length : ℚ)) :
    m.get_stats = some
      { avg_processing_time_ms :=
          pyRound2 (m.frame_times.sum / (m.frame_times.length : ℚ))
        fps :=
          pyRound2 (1000 / (m.frame_times.sum / (m.frame_times.length : ℚ)))
        total_frames := m.frame_times.length
        recent_person_count :=
          if (lastTen m.detection_stats).map (fun s => (s.person_count : ℚ)) = []
          then 0
          else ((lastTen m.detection_stats).map
              (fun s => (s.person_count : ℚ))).sum /
            (((lastTen m.detection_stats).map
              (fun s => (s.person_count : ℚ))).length : ℚ)
        recent_vehicle_count :=
          if (lastTen m.detection_stats).map (fun s => (s.vehicle_count : ℚ)) = []
          then 0
          else ((lastTen m.detection_stats).map
              (fun s => (s.vehicle_count : ℚ))).sum /
            (((lastTen m.detection_stats).map
              (fun s => (s.vehicle_count : ℚ))).length : ℚ) } := by
  simp only [PerformanceMonitor.get_stats]
  rw [if_neg h1, if_pos h2]

theorem get_stats_formulas_witness :
    c5mon.get_stats = some
      { avg_processing_time_ms :=
          pyRound2 (c5mon.frame_times.sum / (c5mon.frame_times.length : ℚ))
        fps :=
          pyRound2 (1000 / (c5mon.frame_times.sum / (c5mon.frame_times.length : ℚ)))
        total_frames := c5mon.frame_times.length
        recent_person_count :=
          if (lastTen c5mon.detection_stats).map (fun s => (s.person_count : ℚ)) = []
          then 0
          else ((lastTen c5mon.detection_stats).map
              (fun s => (s.person_count : ℚ))).sum /
            (((lastTen c5mon.detection_stats).map
              (fun s => (s.person_count : ℚ))).length : ℚ)
        recent_vehicle_count :=
          if (lastTen c5mon.detection_stats).map (fun s => (s.vehicle_count : ℚ)) = []
          then 0
          else ((lastTen c5mon.detection_stats).map
              (fun s => (s.vehicle_count : ℚ))).sum /
            (((lastTen c5mon.detection_stats).map
              (fun s => (s.vehicle_count : ℚ))).length : ℚ) } :=
  get_stats_formulas c5mon (by simp [c5mon]) (by norm_num [c5mon])

theorem tally_counts_le (r : ROI) (w h : ℚ) (acc : Counts) (cid : Int)
    (b : BBox)
    (hacc : acc.person_count + acc.vehicle_count ≤ acc.total_detections) :
    (tally r w h acc cid b).person_count + (tally r w h acc cid b).vehicle_count
      ≤ (tally r w h acc cid b).total_detections := by
  unfold tally
  split
  · cases h : category_of cid <;> simp_all <;> omega
  · exact hacc

theorem scan_counts_le (r : ROI) (w h : ℚ) (dets : List RawDet) (acc : Counts)
    (hacc : acc.person_count + acc.vehicle_count ≤ acc.total_detections) :
    (scan_detections r w h dets acc).1.person_count +
      (scan_detections r w h dets acc).1.vehicle_count ≤
      (scan_detections r w h dets acc).1.total_detections := by
  induction dets generalizing acc with
  | nil => simpa [scan_detections] using hacc
  | cons d rest ih =>
    rw [scan_detections]
    cases hr : resolve_class_id d with
    | none => exact ih acc hacc
    | some cid =>
      by_cases hb : d.bbox_raises = true
      · simp [hb]; exact hacc
      · simp only [Bool.not_eq_true] at hb
        simp only [hb, Bool.false_eq_true, if_false]
        exact ih _ (tally_counts_le r w h acc cid d.bbox hacc)

/-- A detection whose resolved class id (1, bicycle) maps to neither Person
nor Vehicle, with an in-ROI bounding box. -/
def bicycleDet : RawDet := ⟨some 1, none, false, ⟨3/10, 3/10, 5/10, 5/10⟩, 1/2⟩

/-- C10: after scanning any frame's detection list, the total-in-ROI counter
is at least the person counter plus the vehicle counter; and the inequality
can be strict — an in-ROI detection whose class id resolves to 1 (neither
Person nor Vehicle) bumps only the total. -/
theorem total_in_roi_dominates :
    (∀ (r : ROI) (w h : ℚ) (dets : List RawDet),
      (scan_detections r w h dets ⟨0, 0, 0⟩).1.person_count +
        (scan_detections r w h dets ⟨0, 0, 0⟩).1.vehicle_count ≤
        (scan_detections r w h dets ⟨0, 0, 0⟩).1.total_detections) ∧
    ((scan_detections roiDefault 640 640 [bicycleDet] ⟨0, 0, 0⟩).1.person_count +
      (scan_detections roiDefault 640 640 [bicycleDet] ⟨0, 0, 0⟩).1.vehicle_count <
      (scan_detections roiDefault 640 640 [bicycleDet] ⟨0, 0, 0⟩).1.total_detections) := by
  constructor
  · intro r w h dets
    exact scan_counts_le r w h dets ⟨0, 0, 0⟩ (le_refl 0)
  · norm_num [scan_detections, resolve_class_id, bicycleDet, tally,
      ROI.contains_bbox, roiDefault, category_of, COCO_PERSON, COCO_VEHICLES]

/-- A person detection (class id 0) whose bbox lies inside the default ROI. -/
def inRoiPersonDet : RawDet :=
  ⟨some 0, none, false, ⟨1/10, 1/10, 5/10, 5/10⟩, 9/10⟩

/-- A detection with a resolvable class id whose bbox access raises, so the
exception escapes the per-detection handling into the frame-level `except`. -/
def raisingDet : RawDet := ⟨some 1, none, true, ⟨0, 0, 0, 0⟩, 0⟩

/-- C8 counterexample: a frame whose detection scan raises an exception
after an in-ROI person was already counted yields counts (1, 0, 1) — not the
zero counts the claim asserts. -/
theorem scan_exception_partial_counts :
    scan_detections roiDefault 640 640 [inRoiPersonDet, raisingDet] ⟨0, 0, 0⟩
      = (⟨1, 0, 1⟩, true) ∧ (1 : ℕ) ≠ 0 := by
  constructor
  · norm_num [scan_detections, resolve_class_id, inRoiPersonDet, raisingDet,
      tally, ROI.contains_bbox, roiDefault, category_of, COCO_PERSON,
      COCO_VEHICLES]
  · omega

/-- C8 (amended): an exception raised while scanning a frame's detections is
recovered at the frame boundary — the run does not crash — but the frame
yields the counts accumulated before the exception (zero only when the
exception precedes every in-ROI detection), and the remaining detections are
not scanned. -/
theorem scan_exception_keeps_accumulated (r : ROI) (w h : ℚ)
    (pre rest : List RawDet) (d : RawDet) (acc : Counts)
    (hpre : ∀ x ∈ pre, ((resolve_class_id x).isSome && x.bbox_raises) = false)
    (hd1 : (resolve_class_id d).isSome = true) (hd2 : d.bbox_raises = true) :
    scan_detections r w h (pre ++ d :: rest) acc =
      ((scan_detections r w h pre acc).1, true) := by
  induction pre generalizing acc with
  | nil =>
    obtain ⟨cid, hcid⟩ := Option.isSome_iff_exists.mp hd1
    simp [scan_detections, hcid, hd2]
  | cons x pre ih =>
    have hx := hpre x (by simp)
    simp only [List.cons_append]
    rw [scan_detections, scan_detections]
    cases hr : resolve_class_id x with
    | none => exact ih acc (fun y hy => hpre y (List.mem_cons_of_mem x hy))
    | some cid =>
      have hxr : x.bbox_raises = false := by
        rw [hr] at hx
        simpa using hx
      simp only [hxr, Bool.false_eq_true, if_false]
      exact ih _ (fun y hy => hpre y (List.mem_cons_of_mem x hy))

theorem scan_exception_keeps_accumulated_witness :
    scan_detections roiDefault 640 640 ([inRoiPersonDet] ++ raisingDet :: [])
        ⟨0, 0, 0⟩
      = ((scan_detections roiDefault 640 640 [inRoiPersonDet] ⟨0, 0, 0⟩).1,
          true) :=
  scan_exception_keeps_accumulated roiDefault 640 640 [inRoiPersonDet] []
    raisingDet ⟨0, 0, 0⟩ (by decide) (by decide) (by decide)

/-- C3: starting from a fresh counter, the first processed frame records no
`DetectionStats` sample (it has no prior timestamp), and the second frame —
arriving strictly later — records exactly one sample, whose frame interval
is `(t2 - t1) * 1000` milliseconds, strictly positive. -/
theorem first_two_frames (r : ROI) (w h : ℚ) (t1 t2 : ℚ)
    (d1 d2 : List RawDet) (h12 : t1 < t2) :
    ((on_buffer_probe (initState r w h) t1 d1).perf_monitor.detection_stats
      = []) ∧
    ((on_buffer_probe (on_buffer_probe (initState r w h) t1 d1) t2
        d2).perf_monitor.detection_stats.map DetectionStats.processing_time_ms
      = [(t2 - t1) * 1000]) ∧
    0 < (t2 - t1) * 1000 := by
  have hpos : 0 < (t2 - t1) * 1000 := by
    have hd := sub_pos.mpr h12
    nlinarith
  refine ⟨?_, ?_, hpos⟩
  · simp [on_buffer_probe, initState, PerformanceMonitor.init]
  · simp [on_buffer_probe, initState, PerformanceMonitor.init, hpos,
      PerformanceMonitor.record_sample, PerformanceMonitor.add_frame_time,
      PerformanceMonitor.add_detection, dequeAppend]

theorem first_two_frames_witness :
    ((on_buffer_probe (initState roiDefault 640 640) 0 []).perf_monitor.detection_stats
      = []) ∧
    ((on_buffer_probe (on_buffer_probe (initState roiDefault 640 640) 0 []) 1
        []).perf_monitor.detection_stats.map DetectionStats.processing_time_ms
      = [((1 : ℚ) - 0) * 1000]) ∧
    (0 : ℚ) < ((1 : ℚ) - 0) * 1000 :=
  first_two_frames roiDefault 640 640 0 1 [] [] (by norm_num)

/-- C2: a detection's classification uses the numeric class id when present
(0 ↦ Person; 2, 3, 5, 7 ↦ Vehicle); only when no numeric id is available
does it fall back to the case-insensitive label table ("person" ↦ Person;
"car", "automobile", "motorcycle", "motorbike", "bus", "truck", "lorry" ↦
Vehicle); a detection with neither a usable id nor a known label is skipped
by the scan and contributes to no count. -/
theorem classification_resolution (d : RawDet) (c : Int) (s : String)
    (r : ROI) (w h : ℚ) (rest : List RawDet) (acc : Counts) :
    (d.class_id = some c → resolve_class_id d = some c) ∧
    (d.class_id = some 0 → classify d = some Category.person) ∧
    (d.class_id = some c → (c = 2 ∨ c = 3 ∨ c = 5 ∨ c = 7) →
      classify d = some Category.vehicle) ∧
    (d.class_id = none → d.label = some (LabelVal.str s) →
      resolve_class_id d = LABEL_TO_CLASS (strLower s)) ∧
    (d.class_id = none → d.label = some (LabelVal.str s) →
      strLower s = "person" → classify d = some Category.person) ∧
    (d.class_id = none → d.label = some (LabelVal.str s) →
      (strLower s = "car" ∨ strLower s = "automobile" ∨
        strLower s = "motorcycle" ∨ strLower s = "motorbike" ∨
        strLower s = "bus" ∨ strLower s = "truck" ∨ strLower s = "lorry") →
      classify d = some Category.vehicle) ∧
    (resolve_class_id d = none →
      scan_detections r w h (d :: rest) acc = scan_detections r w h rest acc) := by
  refine ⟨?_, ?_, ?_, ?_, ?_, ?_, ?_⟩
  · intro hc; simp [resolve_class_id, hc]
  · intro hc; simp [classify, resolve_class_id, hc, category_of, COCO_PERSON]
  · intro hc hv
    simp only [classify, resolve_class_id, hc, Option.map_some]
    rcases hv with rfl | rfl | rfl | rfl <;>
      simp [category_of, COCO_PERSON, COCO_VEHICLES]
  · intro hc hl; simp [resolve_class_id, hc, hl]
  · intro hc hl hs
    simp [classify, resolve_class_id, hc, hl, hs, LABEL_TO_CLASS, category_of,
      COCO_PERSON]
  · intro hc hl hs
    simp only [classify, resolve_class_id, hc, hl]
    rcases hs with hs | hs | hs | hs | hs | hs | hs <;>
      simp [hs, LABEL_TO_CLASS, category_of, COCO_PERSON, COCO_VEHICLES]
  · intro hn
    simp [scan_detections, hn]

theorem classification_resolution_witness :
    classify ⟨none, some (LabelVal.str "Truck"), false, ⟨0, 0, 1, 1⟩, 9/10⟩ =
      some Category.vehicle := by
  have h := classification_resolution
    ⟨none, some (LabelVal.str "Truck"), false, ⟨0, 0, 1, 1⟩, 9/10⟩
    7 "Truck" roiDefault 640 640 [] ⟨0, 0, 0⟩
  exact h.2.2.2.2.2.1 rfl rfl
    (Or.inr (Or.inr (Or.inr (Or.inr (Or.inr (Or.inl (by decide)))))))

theorem run_exit_codes_witness :
    run_lifecycle false false RunEvent.eos = ⟨1, false⟩ ∧
    run_lifecycle true false RunEvent.eos = ⟨1, false⟩ ∧
    (run_lifecycle true true RunEvent.eos).exit_code = 0 ∧
    (run_lifecycle true true RunEvent.eos).final_stats_logged = true := by
  have h1 := run_exit_codes false false RunEvent.eos
  have h2 := run_exit_codes true false RunEvent.eos
  exact ⟨h1.1 rfl, h2.2.1 rfl, (h2.2.2 (Or.inl rfl)).1, (h2.2.2 (Or.inl rfl)).2⟩
